import Mathlib

/-!
PaymentGateway: the Stripe webhook handler and its payment record store.

A shallow embedding of `src/webhook.js` (the `router.post('/')` handler) and of
`src/models/stripePayement.model.js` (the `StripePayment` schema).

Modelling conventions.

* A collection is the list of its documents in insertion order; a lookup that
  returns one document returns the first match in that order.
* The keys the handler reads from `event.data.object` are gathered in one
  structure, `StripeObject`.  A key of the payload is absent (`undefined` when
  read), `null`, or holds a value: the type `Js`.  A stored path is `none` when it
  is null or not set.
* A key whose value is `undefined` is stripped from an update, so the stored value
  is kept; in a new document it leaves the path unset; in a query it reads as null.
* An object literal handed to the store is a list of key/value pairs, with the
  keys spelled as in the source.  The schema runs in its default strict mode:
  a key that is not a path of the schema is dropped when the literal is cast.
* `timestamps: true` stamps `createdAt` and `updatedAt`; the clock reading is the
  argument `now`.  The generated `_id` and `__v` are not modelled.
* `stripe.webhooks.constructEvent` belongs to the Stripe SDK and is an argument of
  the handler; a failure of the database driver is the argument `dbError`.
* Console output is not modelled.
-/

namespace PaymentGateway

/-! ## The schema (`stripePayement.model.js`) -/

/-- Nested path `billingDetails.address` of the schema. -/
structure Address where
  line1 : Option String
  line2 : Option String
  city : Option String
  state : Option String
  postal_code : Option String
  country : Option String
deriving DecidableEq, Repr

/-- Nested path `billingDetails` of the schema. -/
structure BillingDetails where
  name : Option String
  email : Option String
  address : Address
deriving DecidableEq, Repr

/-- One document of the `StripePayment` model (`StripePaymentSchema`, with the two
timestamp paths added by `timestamps: true`). -/
structure StripePayment where
  sessionId : Option String
  paymentIntentId : Option String
  chargeId : Option String
  customerEmail : Option String
  amountTotal : Option Int
  currency : Option String
  paymentStatus : Option String
  paymentMethodType : Option String
  receiptUrl : Option String
  billingDetails : BillingDetails
  errorMessage : Option String
  createdAt : Nat
  updatedAt : Nat
deriving DecidableEq, Repr

/-- The payment record store: the collection's documents in insertion order. -/
abbrev Store := List StripePayment

/-- The object `{}` cast as an address: no path is set. -/
def emptyAddress : Address :=
  { line1 := none, line2 := none, city := none, state := none, postal_code := none,
    country := none }

/-- A document on which no path is set yet. -/
def emptyDoc : StripePayment :=
  { sessionId := none, paymentIntentId := none, chargeId := none, customerEmail := none,
    amountTotal := none, currency := none, paymentStatus := none,
    paymentMethodType := none, receiptUrl := none,
    billingDetails := { name := none, email := none, address := emptyAddress },
    errorMessage := none, createdAt := 0, updatedAt := 0 }

/-! ## Values and object literals passed to the store -/

/-- What reading a key of a JavaScript object gives: `undefined` (the key is absent),
`null`, or a value. -/
inductive Js (α : Type) where
  | undefined
  | null
  | val (a : α)
deriving DecidableEq, Repr

/-- The value as stored or compared: `undefined` and `null` both read as no value. -/
def Js.toOption {α : Type} : Js α → Option α
  | .val a => some a
  | _ => none

/-- A stored value read back as a JavaScript value. -/
def Js.ofOption {α : Type} : Option α → Js α
  | some a => .val a
  | none => .null

/-- Writing a value onto a stored path: `undefined` is stripped and keeps what is
stored, `null` clears the path, a value replaces it. -/
def Js.merge {α : Type} (v : Js α) (old : Option α) : Option α :=
  match v with
  | .undefined => old
  | .null => none
  | .val a => some a

/-- Optional chaining `o?.key`: `undefined` when `o` is `undefined` or `null`. -/
def Js.chain {α β : Type} (o : Js α) (key : α → Js β) : Js β :=
  match o with
  | .val a => key a
  | _ => .undefined

/-- A value on the right of a key in an object literal given to the store. -/
inductive Value where
  | str (s : Js String)
  | num (n : Js Int)
  | date (t : Nat)
  | billing (b : BillingDetails)
deriving DecidableEq, Repr

/-- An object literal: its keys with their values, in source order. -/
abbrev Fields := List (String × Value)

/-- The value written to a `String` path.  The handler only passes strings (or
`null`, or `undefined`) to such paths; a value of another kind leaves the path as it
was. -/
def castString (v : Value) (old : Option String) : Option String :=
  match v with
  | .str s => s.merge old
  | _ => old

/-- The value written to a `Number` path. -/
def castNumber (v : Value) (old : Option Int) : Option Int :=
  match v with
  | .num n => n.merge old
  | _ => old

/-- The value written to the nested path `billingDetails`. -/
def castBilling (v : Value) (old : BillingDetails) : BillingDetails :=
  match v with
  | .billing b => b
  | _ => old

/-- Cast one key of an object literal onto a document.  Only the paths of
`StripePaymentSchema` are written; any other key is dropped (strict mode). -/
def setPath (r : StripePayment) (kv : String × Value) : StripePayment :=
  if kv.1 = "sessionId" then { r with sessionId := castString kv.2 r.sessionId }
  else if kv.1 = "paymentIntentId" then
    { r with paymentIntentId := castString kv.2 r.paymentIntentId }
  else if kv.1 = "chargeId" then { r with chargeId := castString kv.2 r.chargeId }
  else if kv.1 = "customerEmail" then
    { r with customerEmail := castString kv.2 r.customerEmail }
  else if kv.1 = "amountTotal" then { r with amountTotal := castNumber kv.2 r.amountTotal }
  else if kv.1 = "currency" then { r with currency := castString kv.2 r.currency }
  else if kv.1 = "paymentStatus" then
    { r with paymentStatus := castString kv.2 r.paymentStatus }
  else if kv.1 = "paymentMethodType" then
    { r with paymentMethodType := castString kv.2 r.paymentMethodType }
  else if kv.1 = "receiptUrl" then { r with receiptUrl := castString kv.2 r.receiptUrl }
  else if kv.1 = "billingDetails" then
    { r with billingDetails := castBilling kv.2 r.billingDetails }
  else if kv.1 = "errorMessage" then
    { r with errorMessage := castString kv.2 r.errorMessage }
  else r

/-- Read a path of a document, for query matching; a path the document does not
have reads as null. -/
def fieldOf (r : StripePayment) (key : String) : Value :=
  if key = "sessionId" then .str (Js.ofOption r.sessionId)
  else if key = "paymentIntentId" then .str (Js.ofOption r.paymentIntentId)
  else if key = "chargeId" then .str (Js.ofOption r.chargeId)
  else if key = "customerEmail" then .str (Js.ofOption r.customerEmail)
  else if key = "amountTotal" then .num (Js.ofOption r.amountTotal)
  else if key = "currency" then .str (Js.ofOption r.currency)
  else if key = "paymentStatus" then .str (Js.ofOption r.paymentStatus)
  else if key = "paymentMethodType" then .str (Js.ofOption r.paymentMethodType)
  else if key = "receiptUrl" then .str (Js.ofOption r.receiptUrl)
  else if key = "billingDetails" then .billing r.billingDetails
  else if key = "errorMessage" then .str (Js.ofOption r.errorMessage)
  else .str .null

/-- The value a query compares with: `undefined` in a filter reads as null. -/
def queryValue (v : Value) : Value :=
  match v with
  | .str s => .str (Js.ofOption s.toOption)
  | .num n => .num (Js.ofOption n.toOption)
  | v => v

/-- Equality query: every key of the filter has the given value in the document. -/
def matchesFilter (filter : Fields) (r : StripePayment) : Bool :=
  filter.all fun kv => decide (fieldOf r kv.1 = queryValue kv.2)

/-- Stamp a freshly inserted document (`createdAt` and `updatedAt`). -/
def stampInsert (now : Nat) (r : StripePayment) : StripePayment :=
  { r with createdAt := now, updatedAt := now }

/-- Stamp an updated document (`updatedAt` only). -/
def stampUpdate (now : Nat) (r : StripePayment) : StripePayment :=
  { r with updatedAt := now }

/-! ## Store operations (`StripePayment.create`, `StripePayment.findOneAndUpdate`) -/

/-- `StripePayment.create(doc)`: insert one new document built from `doc`.  It never
looks for an existing document. -/
def create (dbError : Option String) (now : Nat) (doc : Fields) (store : Store) :
    Except String Store :=
  match dbError with
  | some msg => .error msg
  | none => .ok (store ++ [stampInsert now (doc.foldl setPath emptyDoc)])

/-- Apply `update` to the first document matching `filter`; `none` when no document
matches. -/
def updateFirst (now : Nat) (filter update : Fields) : Store → Option Store
  | [] => none
  | r :: rs =>
    if matchesFilter filter r then
      some (stampUpdate now (update.foldl setPath r) :: rs)
    else
      (updateFirst now filter update rs).map fun rs' => r :: rs'

/-- `StripePayment.findOneAndUpdate(filter, update, { upsert })`: update the first
matching document; when none matches, insert the filter's fields merged with the
update if `upsert` is set, and do nothing otherwise. -/
def findOneAndUpdate (dbError : Option String) (now : Nat) (filter update : Fields)
    (upsert : Bool) (store : Store) : Except String Store :=
  match dbError with
  | some msg => .error msg
  | none =>
    match updateFirst now filter update store with
    | some store' => .ok store'
    | none =>
      if upsert then
        .ok (store ++ [stampInsert now ((filter ++ update).foldl setPath emptyDoc)])
      else
        .ok store

/-! ## Events (`event.type`, `event.data.object`) -/

/-- Payload `last_payment_error` of a payment intent. -/
structure PaymentError where
  message : Js String
deriving DecidableEq, Repr

/-- Payload `payment_method_details` of a charge. -/
structure PaymentMethodDetails where
  type : Js String
deriving DecidableEq, Repr

/-- Payload `billing_details` of a charge. -/
structure BillingPayload where
  name : Js String
  email : Js String
  address : Js Address
deriving DecidableEq, Repr

/-- The keys the handler reads from `event.data.object`. -/
structure StripeObject where
  id : Js String
  payment_intent : Js String
  customer_email : Js String
  amount_total : Js Int
  currency : Js String
  payment_status : Js String
  status : Js String
  last_payment_error : Js PaymentError
  receipt_url : Js String
  payment_method_details : Js PaymentMethodDetails
  billing_details : Js BillingPayload
deriving DecidableEq, Repr

/-- The envelope part `event.data`. -/
structure EventData where
  object : StripeObject
deriving DecidableEq, Repr

/-- A verified event, as returned by `constructEvent`. -/
structure Event where
  type : String
  data : EventData
deriving DecidableEq, Repr

/-- JavaScript `s || ''` on a string that may be null or undefined. -/
def orEmpty (s : Js String) : Js String :=
  .val (s.toOption.getD "")

/-! ## The handler (`router.post('/')`) -/

/-- The `switch (event.type)` block inside the outer `try`; `.error` is an exception
that reaches the outer `catch`. -/
def reconcile (dbError : Option String) (now : Nat) (event : Event) (store : Store) :
    Except String Store :=
  let data := event.data.object
  match event.type with
  | "checkout.session.completed" =>
    match create dbError now
        [("sessionId", .str data.id),
         ("paymentIntentId", .str data.payment_intent),
         ("customerEmail", .str data.customer_email),
         ("amountTotal", .num data.amount_total),
         ("currency", .str data.currency),
         ("paymentStatus", .str data.payment_status)] store with
    | .ok store' => .ok store'
    | .error _ => .ok store
  | "payment_intent.succeeded" =>
    findOneAndUpdate dbError now
      [("paymentIntentId", .str data.id)]
      [("paymentStatus", .str data.status),
       ("updated", .date now)] false store
  | "payment_intent.payment_failed" =>
    let error := data.last_payment_error.chain fun e => e.message
    findOneAndUpdate dbError now
      [("paymentIntentId", .str data.id)]
      [("paymentStatus", .str (.val "failed")),
       ("error", .str error),
       ("updated", .date now)] false store
  | "charge.updated" =>
    findOneAndUpdate dbError now
      [("paymentIntentId", .str data.payment_intent)]
      [("chargeId", .str data.id),
       ("receiptUrl", .str data.receipt_url),
       ("paymentStatus", .str data.status),
       ("paymentMethodType",
          .str (orEmpty (data.payment_method_details.chain fun d => d.type))),
       ("billingDetails", .billing
          { name := (orEmpty (data.billing_details.chain fun b => b.name)).toOption,
            email := (orEmpty (data.billing_details.chain fun b => b.email)).toOption,
            address :=
              (data.billing_details.chain fun b => b.address).toOption.getD emptyAddress })]
      true store
  | _ => .ok store

/-- The request parts the handler reads: the raw body and the `stripe-signature`
header. -/
structure Request where
  body : String
  signature : Option String
deriving DecidableEq, Repr

/-- A response body: `res.send(text)` or `res.json({ received })`. -/
inductive Body where
  | text (s : String)
  | json (received : Bool)
deriving DecidableEq, Repr

/-- The HTTP response written by the handler. -/
structure Response where
  status : Nat
  body : Body
deriving DecidableEq, Repr

/-- The signature of `stripe.webhooks.constructEvent(body, sig, secret)`: it returns
the event or throws an error with a message. -/
abbrev ConstructEvent := String → Option String → Option String → Except String Event

/-- The handler `router.post('/')`: the response it writes and the store it leaves. -/
def handler (constructEvent : ConstructEvent) (secret : Option String)
    (dbError : Option String) (now : Nat) (req : Request) (store : Store) :
    Response × Store :=
  match constructEvent req.body req.signature secret with
  | .error message =>
    ({ status := 400, body := .text ("Webhook Error: " ++ message) }, store)
  | .ok event =>
    match reconcile dbError now event store with
    | .ok store' => ({ status := 200, body := .json true }, store')
    | .error _ => ({ status := 200, body := .json true }, store)

/-- The store after a verified event has been handled with the database available. -/
def applyEvent (now : Nat) (event : Event) (store : Store) : Store :=
  match reconcile none now event store with
  | .ok store' => store'
  | .error _ => store

/-! ## Comparing stores up to `updatedAt` -/

/-- A document with its `updatedAt` stamp cleared. -/
def eraseUpdatedAt (r : StripePayment) : StripePayment :=
  { r with updatedAt := 0 }

/-- Two stores hold the same documents, in the same order, up to `updatedAt`. -/
def sameExceptUpdatedAt (s t : Store) : Prop :=
  s.map eraseUpdatedAt = t.map eraseUpdatedAt

instance (s t : Store) : Decidable (sameExceptUpdatedAt s t) := by
  unfold sameExceptUpdatedAt
  infer_instance

/-- A document with both timestamps cleared. -/
def eraseTimestamps (r : StripePayment) : StripePayment :=
  { r with createdAt := 0, updatedAt := 0 }

/-- Number of documents of the store with the given `sessionId`. -/
def countSession (sid : Option String) (store : Store) : Nat :=
  (store.filter fun r => decide (r.sessionId = sid)).length

/-- Number of documents of the store with the given `paymentIntentId`. -/
def countIntent (p : Option String) (store : Store) : Nat :=
  (store.filter fun r => decide (r.paymentIntentId = p)).length

/-! ## Sample events and documents -/

/-- An `event.data.object` on which every key the handler reads is null. -/
def nullObject : StripeObject :=
  { id := .null, payment_intent := .null, customer_email := .null, amount_total := .null,
    currency := .null, payment_status := .null, status := .null, last_payment_error := .null,
    receipt_url := .null, payment_method_details := .null, billing_details := .null }

/-- SessionCompleted(session `cs_1`, intent `pi_1`, amount 1999, status `complete`). -/
def sessionCompletedCs1 : Event :=
  { type := "checkout.session.completed",
    data :=
      { object :=
          { nullObject with
            id := .val "cs_1", payment_intent := .val "pi_1",
            customer_email := .val "ada@example.com", amount_total := .val 1999,
            currency := .val "eur", payment_status := .val "complete" } } }

/-- ChargeUpdated(intent `pi_1`, charge `ch_1`, status `succeeded`, method `card`). -/
def chargeUpdatedCh1 : Event :=
  { type := "charge.updated",
    data :=
      { object :=
          { nullObject with
            id := .val "ch_1", payment_intent := .val "pi_1", status := .val "succeeded",
            payment_method_details := .val { type := .val "card" } } } }

/-- ChargeUpdated for intent `pi_1` with a receipt URL and without the keys
`payment_method_details` and `billing_details`. -/
def chargeUpdatedBare : Event :=
  { type := "charge.updated",
    data :=
      { object :=
          { nullObject with
            id := .val "ch_1", payment_intent := .val "pi_1", status := .val "succeeded",
            receipt_url := .val "https://pay.example/receipts/1",
            payment_method_details := .undefined, billing_details := .undefined } } }

/-- IntentSucceeded for intent `pi_1`. -/
def intentSucceededPi1 : Event :=
  { type := "payment_intent.succeeded",
    data := { object := { nullObject with id := .val "pi_1", status := .val "succeeded" } } }

/-- IntentFailed for intent `pi_1` with a nested error message. -/
def intentFailedPi1 : Event :=
  { type := "payment_intent.payment_failed",
    data :=
      { object :=
          { nullObject with
            id := .val "pi_1", status := .val "requires_payment_method",
            last_payment_error := .val { message := .val "Your card was declined." } } } }

/-- An event of a kind the handler does not recognise. -/
def customerCreated : Event :=
  { type := "customer.created", data := { object := { nullObject with id := .val "cus_1" } } }

/-- A stored document for intent `pi_1` that already has a payment method type and
billing details. -/
def billedRecord : StripePayment :=
  { emptyDoc with
    sessionId := some "cs_1", paymentIntentId := some "pi_1",
    customerEmail := some "ada@example.com", amountTotal := some 1999,
    currency := some "eur", paymentStatus := some "complete",
    paymentMethodType := some "card",
    billingDetails :=
      { name := some "Ada", email := some "ada@example.com",
        address := { emptyAddress with city := some "Utrecht", country := some "NL" } },
    createdAt := 1, updatedAt := 1 }

/-- An SDK stub that verifies every request as the given event. -/
def acceptAs (event : Event) : ConstructEvent :=
  fun _ _ _ => .ok event

/-- An SDK stub that rejects every request with the given message. -/
def rejectWith (message : String) : ConstructEvent :=
  fun _ _ _ => .error message

/-- A sample request. -/
def sampleRequest : Request :=
  { body := "\x7b\x7d", signature := some "t=1,v1=00" }

/-! ## Lemmas on the store operations -/

@[simp]
theorem Js.merge_none {α : Type} (v : Js α) : v.merge none = v.toOption := by
  cases v <;> rfl

@[simp]
theorem Js.merge_val {α : Type} (a : α) (old : Option α) :
    (Js.val a).merge old = some a := rfl

@[simp]
theorem Js.merge_merge {α : Type} (v : Js α) (old : Option α) :
    v.merge (v.merge old) = v.merge old := by
  cases v <;> rfl

@[simp]
theorem Js.merge_toOption {α : Type} (v : Js α) : v.merge v.toOption = v.toOption := by
  cases v <;> rfl

@[simp]
theorem Js.toOption_val {α : Type} (a : α) : (Js.val a).toOption = some a := rfl

theorem Js.toOption_ofOption {α : Type} (o : Option α) : (Js.ofOption o).toOption = o := by
  cases o <;> rfl

theorem Js.ofOption_inj {α : Type} (a b : Option α) :
    Js.ofOption a = Js.ofOption b ↔ a = b := by
  constructor
  · intro h
    have := congrArg Js.toOption h
    simpa [Js.toOption_ofOption] using this
  · intro h
    rw [h]

theorem updateFirst_none (now : Nat) (f u : Fields) (s : Store)
    (h : ∀ x ∈ s, matchesFilter f x = false) : updateFirst now f u s = none := by
  induction s with
  | nil => rfl
  | cons a s ih =>
    have ha : matchesFilter f a = false := h a (List.mem_cons_self a s)
    have hs : ∀ x ∈ s, matchesFilter f x = false :=
      fun x hx => h x (List.mem_cons_of_mem a hx)
    simp [updateFirst, ha, ih hs]

theorem updateFirst_split (now : Nat) (f u : Fields) (pre post : Store) (r : StripePayment)
    (hpre : ∀ x ∈ pre, matchesFilter f x = false) (hr : matchesFilter f r = true) :
    updateFirst now f u (pre ++ r :: post)
      = some (pre ++ stampUpdate now (u.foldl setPath r) :: post) := by
  induction pre with
  | nil => simp [updateFirst, hr]
  | cons a pre ih =>
    have ha : matchesFilter f a = false := hpre a (List.mem_cons_self a pre)
    have hs : ∀ x ∈ pre, matchesFilter f x = false :=
      fun x hx => hpre x (List.mem_cons_of_mem a hx)
    simp [updateFirst, ha, ih hs]

/-- Either no document matches the filter, or the store splits at its first match. -/
theorem first_match_cases (f : Fields) (s : Store) :
    (∀ x ∈ s, matchesFilter f x = false) ∨
    ∃ pre r post, s = pre ++ r :: post ∧ (∀ x ∈ pre, matchesFilter f x = false) ∧
      matchesFilter f r = true := by
  induction s with
  | nil => left; simp
  | cons a s ih =>
    by_cases ha : matchesFilter f a = true
    · right; exact ⟨[], a, s, rfl, by simp, ha⟩
    · have ha' : matchesFilter f a = false := by simpa using ha
      rcases ih with hall | ⟨pre, r, post, hs, hpre, hr⟩
      · left
        intro x hx
        rcases List.mem_cons.mp hx with rfl | hx
        · exact ha'
        · exact hall x hx
      · right
        refine ⟨a :: pre, r, post, by simp [hs], ?_, hr⟩
        intro x hx
        rcases List.mem_cons.mp hx with rfl | hx
        · exact ha'
        · exact hpre x hx

theorem matchesFilter_intent (p : Js String) (r : StripePayment) :
    matchesFilter [("paymentIntentId", .str p)] r
      = decide (r.paymentIntentId = p.toOption) := by
  simp [matchesFilter, fieldOf, queryValue, Js.ofOption_inj]

theorem findOneAndUpdate_hit (now : Nat) (f u : Fields) (upsert : Bool)
    (pre post : Store) (r : StripePayment)
    (hpre : ∀ x ∈ pre, matchesFilter f x = false) (hr : matchesFilter f r = true) :
    findOneAndUpdate none now f u upsert (pre ++ r :: post)
      = .ok (pre ++ stampUpdate now (u.foldl setPath r) :: post) := by
  simp [findOneAndUpdate, updateFirst_split now f u pre post r hpre hr]

theorem findOneAndUpdate_miss (now : Nat) (f u : Fields) (s : Store)
    (h : ∀ x ∈ s, matchesFilter f x = false) :
    findOneAndUpdate none now f u false s = .ok s := by
  simp [findOneAndUpdate, updateFirst_none now f u s h]

theorem findOneAndUpdate_upsert (now : Nat) (f u : Fields) (s : Store)
    (h : ∀ x ∈ s, matchesFilter f x = false) :
    findOneAndUpdate none now f u true s
      = .ok (s ++ [stampInsert now ((f ++ u).foldl setPath emptyDoc)]) := by
  simp [findOneAndUpdate, updateFirst_none now f u s h]

theorem findOneAndUpdate_fault (msg : String) (now : Nat) (f u : Fields) (upsert : Bool)
    (s : Store) : findOneAndUpdate (some msg) now f u upsert s = .error msg := rfl

/-- Running a `findOneAndUpdate` and then one with the same filter: when the first
update keeps a matched document matching and the second update repeats it up to
`updatedAt`, the second run changes nothing but `updatedAt` and inserts nothing. -/
theorem findOneAndUpdate_twice (t1 t2 : Nat) (f u1 u2 : Fields) (upsert : Bool) (s : Store)
    (hkeep : ∀ r, matchesFilter f r = true →
      matchesFilter f (stampUpdate t1 (u1.foldl setPath r)) = true)
    (hidem : ∀ r, eraseUpdatedAt (stampUpdate t2 (u2.foldl setPath
        (stampUpdate t1 (u1.foldl setPath r)))) =
      eraseUpdatedAt (stampUpdate t1 (u1.foldl setPath r)))
    (hnew : matchesFilter f (stampInsert t1 ((f ++ u1).foldl setPath emptyDoc)) = true)
    (hnew2 : eraseUpdatedAt (stampUpdate t2 (u2.foldl setPath
        (stampInsert t1 ((f ++ u1).foldl setPath emptyDoc)))) =
      eraseUpdatedAt (stampInsert t1 ((f ++ u1).foldl setPath emptyDoc))) :
    ∃ s1 s2, findOneAndUpdate none t1 f u1 upsert s = .ok s1 ∧
      findOneAndUpdate none t2 f u2 upsert s1 = .ok s2 ∧
      sameExceptUpdatedAt s2 s1 ∧ s2.length = s1.length := by
  rcases first_match_cases f s with hall | ⟨pre, r, post, hs, hpre, hr⟩
  · cases upsert with
    | false =>
      exact ⟨s, s, findOneAndUpdate_miss t1 f u1 s hall, findOneAndUpdate_miss t2 f u2 s hall,
        rfl, rfl⟩
    | true =>
      refine ⟨_, _, findOneAndUpdate_upsert t1 f u1 s hall,
        findOneAndUpdate_hit t2 f u2 true s [] _ hall hnew, ?_, ?_⟩
      · have h2 := hnew2
        simp only [List.foldl_append] at h2
        simp [sameExceptUpdatedAt, h2]
      · simp
  · subst hs
    refine ⟨_, _, findOneAndUpdate_hit t1 f u1 upsert pre post r hpre hr,
      findOneAndUpdate_hit t2 f u2 upsert pre post _ hpre (hkeep r hr), ?_, ?_⟩
    · simp [sameExceptUpdatedAt, hidem]
    · simp

theorem applyEvent_of_reconcile (now : Nat) (e : Event) (s s' : Store)
    (h : reconcile none now e s = .ok s') : applyEvent now e s = s' := by
  simp [applyEvent, h]

/-! ## What each branch of the switch does when the database is available -/

theorem reconcile_session (now : Nat) (e : Event) (store : Store)
    (h : e.type = "checkout.session.completed") :
    reconcile none now e store = .ok (store ++ [
      { emptyDoc with
        sessionId := e.data.object.id.toOption,
        paymentIntentId := e.data.object.payment_intent.toOption,
        customerEmail := e.data.object.customer_email.toOption,
        amountTotal := e.data.object.amount_total.toOption,
        currency := e.data.object.currency.toOption,
        paymentStatus := e.data.object.payment_status.toOption,
        createdAt := now, updatedAt := now }]) := by
  simp [reconcile, h, create, setPath, castString, castNumber, stampInsert, emptyDoc,
    Js.merge_none]

theorem reconcile_succeeded (now : Nat) (e : Event) (store : Store)
    (h : e.type = "payment_intent.succeeded") :
    reconcile none now e store =
      findOneAndUpdate none now [("paymentIntentId", .str e.data.object.id)]
        [("paymentStatus", .str e.data.object.status), ("updated", .date now)] false store := by
  simp [reconcile, h]

theorem reconcile_failed (now : Nat) (e : Event) (store : Store)
    (h : e.type = "payment_intent.payment_failed") :
    reconcile none now e store =
      findOneAndUpdate none now [("paymentIntentId", .str e.data.object.id)]
        [("paymentStatus", .str (.val "failed")),
         ("error", .str (e.data.object.last_payment_error.chain fun x => x.message)),
         ("updated", .date now)] false store := by
  simp [reconcile, h]

theorem reconcile_charge (now : Nat) (e : Event) (store : Store)
    (h : e.type = "charge.updated") :
    reconcile none now e store =
      findOneAndUpdate none now [("paymentIntentId", .str e.data.object.payment_intent)]
        [("chargeId", .str e.data.object.id),
         ("receiptUrl", .str e.data.object.receipt_url),
         ("paymentStatus", .str e.data.object.status),
         ("paymentMethodType",
            .str (orEmpty (e.data.object.payment_method_details.chain fun d => d.type))),
         ("billingDetails", .billing
            { name := (orEmpty (e.data.object.billing_details.chain fun b => b.name)).toOption,
              email :=
                (orEmpty (e.data.object.billing_details.chain fun b => b.email)).toOption,
              address :=
                (e.data.object.billing_details.chain fun b => b.address).toOption.getD
                  emptyAddress })]
        true store := by
  simp [reconcile, h]

theorem no_intent_match (p : Js String) (s : Store)
    (h : ∀ r ∈ s, r.paymentIntentId ≠ p.toOption) :
    ∀ x ∈ s, matchesFilter [("paymentIntentId", .str p)] x = false := by
  intro x hx
  simp [matchesFilter_intent, h x hx]

/-! ## The webhook response -/

/-- C1: once `constructEvent` has returned an event, the handler answers with status
200 and body `{received: true}`, for every `event.type` (recognised or not) and
whether or not the store operation throws. -/
theorem handler_acknowledges_verified_event (constructEvent : ConstructEvent)
    (secret dbError : Option String) (now : Nat) (req : Request) (store : Store)
    (event : Event) (hv : constructEvent req.body req.signature secret = .ok event) :
    (handler constructEvent secret dbError now req store).1
      = { status := 200, body := .json true } := by
  simp only [handler, hv]
  cases reconcile dbError now event store <;> rfl

theorem handler_acknowledges_verified_event_witness :
    acceptAs chargeUpdatedCh1 sampleRequest.body sampleRequest.signature (some "whsec_1")
        = .ok chargeUpdatedCh1 ∧
      (handler (acceptAs chargeUpdatedCh1) (some "whsec_1") (some "connection lost") 7
          sampleRequest [billedRecord]).1 = { status := 200, body := .json true } :=
  ⟨rfl, handler_acknowledges_verified_event (acceptAs chargeUpdatedCh1) (some "whsec_1")
    (some "connection lost") 7 sampleRequest [billedRecord] chargeUpdatedCh1 rfl⟩

/-- C2: when `constructEvent` throws an error with message `r`, the handler answers
with status 400 and body `Webhook Error: ` followed by `r`, and the store is left as
it was. -/
theorem handler_rejects_failed_verification (constructEvent : ConstructEvent)
    (secret dbError : Option String) (now : Nat) (req : Request) (store : Store)
    (r : String) (hv : constructEvent req.body req.signature secret = .error r) :
    handler constructEvent secret dbError now req store
      = ({ status := 400, body := .text ("Webhook Error: " ++ r) }, store) := by
  simp only [handler, hv]

theorem handler_rejects_failed_verification_witness :
    rejectWith "signature mismatch" sampleRequest.body sampleRequest.signature
        (some "whsec_1") = .error "signature mismatch" ∧
      handler (rejectWith "signature mismatch") (some "whsec_1") none 7 sampleRequest
          [billedRecord]
        = ({ status := 400, body := .text ("Webhook Error: " ++ "signature mismatch") },
            [billedRecord]) :=
  ⟨rfl, handler_rejects_failed_verification (rejectWith "signature mismatch")
    (some "whsec_1") none 7 sampleRequest [billedRecord] "signature mismatch" rfl⟩

/-! ## SessionCompleted -/

/-- C3 at a failing input: the same SessionCompleted event applied twice to the empty
store leaves two documents with session id `cs_1`, although the store after the first
application holds one document with that session id.  The session branch calls
`create`, which inserts without looking for the session id, where the charge branch
next to it upserts. -/
theorem session_completed_twice_duplicates :
    sessionCompletedCs1.type = "checkout.session.completed" ∧
      sessionCompletedCs1.data.object.id = .val "cs_1" ∧
      countSession (some "cs_1") (applyEvent 1 sessionCompletedCs1 []) = 1 ∧
      countSession (some "cs_1")
        (applyEvent 2 sessionCompletedCs1 (applyEvent 1 sessionCompletedCs1 [])) = 2 := by
  decide

/-- What the session branch does at every input: each application of a
SessionCompleted event appends one new document carrying the event's fields and
leaves the existing documents as they were, so a second delivery adds a second
document with the same session id. -/
theorem session_completed_inserts (t1 t2 : Nat) (e : Event) (store : Store)
    (hk : e.type = "checkout.session.completed") :
    ∃ a b, applyEvent t1 e store = store ++ [a] ∧
      applyEvent t2 e (applyEvent t1 e store) = store ++ [a, b] ∧
      a.sessionId = e.data.object.id.toOption ∧ b.sessionId = e.data.object.id.toOption ∧
      eraseTimestamps a = eraseTimestamps b ∧
      countSession e.data.object.id.toOption (applyEvent t2 e (applyEvent t1 e store))
        = countSession e.data.object.id.toOption store + 2 := by
  have h1 := applyEvent_of_reconcile t1 e store _ (reconcile_session t1 e store hk)
  have h2 := fun s => applyEvent_of_reconcile t2 e s _ (reconcile_session t2 e s hk)
  rw [h1, h2]
  refine ⟨_, _, rfl, List.append_assoc _ _ _, rfl, rfl, rfl, ?_⟩
  simp [countSession, List.filter_append, List.filter_cons]

/-! ## ChargeUpdated for an unseen payment intent -/

/-- C4: when no document has `paymentIntentId` `p`, a ChargeUpdated event whose
`payment_intent` is `p` appends exactly one document and leaves the others as they
were; the new document has `paymentIntentId` `p`, the charge's own id as `chargeId`,
and the payload's `receipt_url` and `status`. -/
theorem charge_updated_upserts_unseen_intent (now : Nat) (e : Event) (store : Store)
    (p : String) (hk : e.type = "charge.updated")
    (hp : e.data.object.payment_intent = .val p)
    (hnew : ∀ r ∈ store, r.paymentIntentId ≠ some p) :
    ∃ r', applyEvent now e store = store ++ [r'] ∧
      (applyEvent now e store).length = store.length + 1 ∧
      r'.paymentIntentId = some p ∧
      r'.chargeId = e.data.object.id.toOption ∧
      r'.receiptUrl = e.data.object.receipt_url.toOption ∧
      r'.paymentStatus = e.data.object.status.toOption := by
  have hrec := reconcile_charge now e store hk
  rw [hp, findOneAndUpdate_upsert now _ _ store (no_intent_match (.val p) store hnew)] at hrec
  rw [applyEvent_of_reconcile now e store _ hrec]
  refine ⟨_, rfl, by simp, ?_, ?_, ?_, ?_⟩ <;>
    simp [setPath, castString, castNumber, castBilling, stampInsert, emptyDoc,
      Js.merge_none, Js.merge_val, Js.toOption]

theorem charge_updated_upserts_unseen_intent_witness :
    ∃ r', applyEvent 3 chargeUpdatedCh1 [] = [] ++ [r'] ∧
      (applyEvent 3 chargeUpdatedCh1 []).length = ([] : Store).length + 1 ∧
      r'.paymentIntentId = some "pi_1" ∧
      r'.chargeId = chargeUpdatedCh1.data.object.id.toOption ∧
      r'.receiptUrl = chargeUpdatedCh1.data.object.receipt_url.toOption ∧
      r'.paymentStatus = chargeUpdatedCh1.data.object.status.toOption :=
  charge_updated_upserts_unseen_intent 3 chargeUpdatedCh1 [] "pi_1" (by decide) (by decide)
    (by simp)

/-! ## Intent events that arrive before the session event -/

/-- C5: when no document has `paymentIntentId` `p`, an IntentSucceeded or IntentFailed
event for `p` raises nothing and leaves the store as it was; a SessionCompleted event
applied afterwards appends one document whose `sessionId`, `paymentIntentId`,
`customerEmail`, `amountTotal`, `currency` and `paymentStatus` are the event's own. -/
theorem intent_event_before_session_is_noop (t1 t2 : Nat) (e1 e2 : Event) (store : Store)
    (p : String)
    (hk : e1.type = "payment_intent.succeeded" ∨ e1.type = "payment_intent.payment_failed")
    (hid : e1.data.object.id = .val p)
    (hnew : ∀ r ∈ store, r.paymentIntentId ≠ some p)
    (hs : e2.type = "checkout.session.completed") :
    reconcile none t1 e1 store = .ok store ∧
      applyEvent t1 e1 store = store ∧
      ∃ r', applyEvent t2 e2 (applyEvent t1 e1 store) = store ++ [r'] ∧
        r'.sessionId = e2.data.object.id.toOption ∧
        r'.paymentIntentId = e2.data.object.payment_intent.toOption ∧
        r'.customerEmail = e2.data.object.customer_email.toOption ∧
        r'.amountTotal = e2.data.object.amount_total.toOption ∧
        r'.currency = e2.data.object.currency.toOption ∧
        r'.paymentStatus = e2.data.object.payment_status.toOption := by
  have h1 : reconcile none t1 e1 store = .ok store := by
    rcases hk with hk | hk
    · rw [reconcile_succeeded t1 e1 store hk, hid]
      exact findOneAndUpdate_miss t1 _ _ store (no_intent_match (.val p) store hnew)
    · rw [reconcile_failed t1 e1 store hk, hid]
      exact findOneAndUpdate_miss t1 _ _ store (no_intent_match (.val p) store hnew)
  have h2 := applyEvent_of_reconcile t1 e1 store store h1
  refine ⟨h1, h2, ?_⟩
  rw [h2]
  exact ⟨_, applyEvent_of_reconcile t2 e2 store _ (reconcile_session t2 e2 store hs),
    rfl, rfl, rfl, rfl, rfl, rfl⟩

theorem intent_event_before_session_is_noop_witness :
    reconcile none 1 intentSucceededPi1 [] = .ok [] ∧
      applyEvent 1 intentSucceededPi1 [] = [] ∧
      ∃ r', applyEvent 2 sessionCompletedCs1 (applyEvent 1 intentSucceededPi1 [])
          = [] ++ [r'] ∧
        r'.sessionId = sessionCompletedCs1.data.object.id.toOption ∧
        r'.paymentIntentId = sessionCompletedCs1.data.object.payment_intent.toOption ∧
        r'.customerEmail = sessionCompletedCs1.data.object.customer_email.toOption ∧
        r'.amountTotal = sessionCompletedCs1.data.object.amount_total.toOption ∧
        r'.currency = sessionCompletedCs1.data.object.currency.toOption ∧
        r'.paymentStatus = sessionCompletedCs1.data.object.payment_status.toOption :=
  intent_event_before_session_is_noop 1 2 intentSucceededPi1 sessionCompletedCs1 [] "pi_1"
    (Or.inl (by decide)) (by decide) (by simp) (by decide)

/-! ## ChargeUpdated for a stored payment intent -/

/-- C6, as stated, fails for a document that is not the first with its payment intent:
after a SessionCompleted event delivered twice, two documents have `paymentIntentId`
`pi_1`, and a ChargeUpdated event for `pi_1` sets `chargeId` and `paymentStatus` on the
first only; the second keeps no `chargeId` and its old status. -/
theorem charge_updated_skips_later_match :
    (applyEvent 2 sessionCompletedCs1 (applyEvent 1 sessionCompletedCs1 [])).map
        (fun r => r.paymentIntentId) = [some "pi_1", some "pi_1"] ∧
      chargeUpdatedCh1.type = "charge.updated" ∧
      chargeUpdatedCh1.data.object.payment_intent = .val "pi_1" ∧
      (applyEvent 3 chargeUpdatedCh1
          (applyEvent 2 sessionCompletedCs1 (applyEvent 1 sessionCompletedCs1 []))).map
        (fun r => (r.chargeId, r.paymentStatus))
        = [(some "ch_1", some "succeeded"), (none, some "complete")] := by
  decide

/-- C6, amended: a ChargeUpdated event for `p` updates the first document, in store
order, whose `paymentIntentId` is `p`: that document keeps its `sessionId`,
`paymentIntentId`, `customerEmail`, `amountTotal`, `currency` and `errorMessage`; its
`chargeId` and `paymentStatus` take the payload's `id` and `status` when the payload
carries them (a value is stored, `null` clears the path, and a key absent from the
payload leaves the stored value); every other document and the number of documents stay
as they were. -/
theorem charge_updated_merges_first_match (now : Nat) (e : Event) (pre post : Store)
    (r : StripePayment) (p : String) (hk : e.type = "charge.updated")
    (hp : e.data.object.payment_intent = .val p)
    (hpre : ∀ x ∈ pre, x.paymentIntentId ≠ some p) (hr : r.paymentIntentId = some p) :
    ∃ r', applyEvent now e (pre ++ r :: post) = pre ++ r' :: post ∧
      (applyEvent now e (pre ++ r :: post)).length = (pre ++ r :: post).length ∧
      r'.sessionId = r.sessionId ∧
      r'.paymentIntentId = r.paymentIntentId ∧
      r'.customerEmail = r.customerEmail ∧
      r'.amountTotal = r.amountTotal ∧
      r'.currency = r.currency ∧
      r'.errorMessage = r.errorMessage ∧
      r'.chargeId = e.data.object.id.merge r.chargeId ∧
      r'.paymentStatus = e.data.object.status.merge r.paymentStatus ∧
      (∀ c, e.data.object.id = .val c → r'.chargeId = some c) ∧
      (∀ st, e.data.object.status = .val st → r'.paymentStatus = some st) ∧
      (e.data.object.id = .undefined → r'.chargeId = r.chargeId) ∧
      (e.data.object.status = .undefined → r'.paymentStatus = r.paymentStatus) := by
  have hrec := reconcile_charge now e (pre ++ r :: post) hk
  rw [hp, findOneAndUpdate_hit now _ _ true pre post r (no_intent_match (.val p) pre hpre)
    (by simp [matchesFilter_intent, hr, Js.toOption])] at hrec
  rw [applyEvent_of_reconcile now e _ _ hrec]
  refine ⟨_, rfl, by simp, ?_, ?_, ?_, ?_, ?_, ?_, ?_, ?_, ?_, ?_, ?_, ?_⟩
  · simp [setPath, castString, castBilling, stampUpdate]
  · simp [setPath, castString, castBilling, stampUpdate]
  · simp [setPath, castString, castBilling, stampUpdate]
  · simp [setPath, castString, castBilling, stampUpdate]
  · simp [setPath, castString, castBilling, stampUpdate]
  · simp [setPath, castString, castBilling, stampUpdate]
  · simp [setPath, castString, castBilling, stampUpdate]
  · simp [setPath, castString, castBilling, stampUpdate]
  · intro c hc
    simp [setPath, castString, castBilling, stampUpdate, hc, Js.merge_val]
  · intro st hst
    simp [setPath, castString, castBilling, stampUpdate, hst, Js.merge_val]
  · intro hc
    simp [setPath, castString, castBilling, stampUpdate, hc, Js.merge]
  · intro hst
    simp [setPath, castString, castBilling, stampUpdate, hst, Js.merge]

theorem charge_updated_merges_first_match_witness :
    ∃ r', applyEvent 2 chargeUpdatedCh1 (applyEvent 1 sessionCompletedCs1 []) = [r'] ∧
      r'.chargeId = some "ch_1" ∧ r'.paymentStatus = some "succeeded" ∧
      r'.amountTotal = some 1999 := by
  obtain ⟨r', h, -, -, -, -, ha, -, -, -, -, hc, hs, -, -⟩ :=
    charge_updated_merges_first_match 2 chargeUpdatedCh1 [] []
      { emptyDoc with
        sessionId := some "cs_1", paymentIntentId := some "pi_1",
        customerEmail := some "ada@example.com", amountTotal := some 1999,
        currency := some "eur", paymentStatus := some "complete",
        createdAt := 1, updatedAt := 1 }
      "pi_1" (by decide) (by decide) (by simp) rfl
  exact ⟨r', h, hc "ch_1" rfl, hs "succeeded" rfl, ha⟩

/-- C7, as stated, fails: a ChargeUpdated event for `pi_1` with no
`payment_method_details` and no `billing_details`, applied to a document that has
method type `card`, billing name `Ada`, a billing email and an address, leaves the
empty string in the first three and the empty address. -/
theorem charge_updated_blanks_absent_fields :
    billedRecord.paymentIntentId = some "pi_1" ∧
      billedRecord.paymentMethodType = some "card" ∧
      billedRecord.billingDetails.name = some "Ada" ∧
      chargeUpdatedBare.data.object.payment_method_details = .undefined ∧
      chargeUpdatedBare.data.object.billing_details = .undefined ∧
      (applyEvent 4 chargeUpdatedBare [billedRecord]).map
        (fun r => (r.paymentMethodType, r.billingDetails))
        = [(some "", { name := some "", email := some "", address := emptyAddress })] := by
  decide

/-- C7, amended: a ChargeUpdated event for `p` overwrites `paymentMethodType`,
`billingDetails.name`, `billingDetails.email` and `billingDetails.address` of the first
document whose `paymentIntentId` is `p`, whether or not the payload supplies them: a
value the payload supplies is stored, and a value it does not supply is replaced by the
empty string (method type, name, email) or by the empty address. -/
theorem charge_updated_overwrites_absent_fields (now : Nat) (e : Event) (pre post : Store)
    (r : StripePayment) (p : String) (hk : e.type = "charge.updated")
    (hp : e.data.object.payment_intent = .val p)
    (hpre : ∀ x ∈ pre, x.paymentIntentId ≠ some p) (hr : r.paymentIntentId = some p) :
    ∃ r', applyEvent now e (pre ++ r :: post) = pre ++ r' :: post ∧
      r'.paymentMethodType
        = some ((e.data.object.payment_method_details.chain fun d => d.type).toOption.getD
            "") ∧
      r'.billingDetails.name
        = some ((e.data.object.billing_details.chain fun b => b.name).toOption.getD "") ∧
      r'.billingDetails.email
        = some ((e.data.object.billing_details.chain fun b => b.email).toOption.getD "") ∧
      r'.billingDetails.address
        = (e.data.object.billing_details.chain fun b => b.address).toOption.getD
            emptyAddress ∧
      (e.data.object.payment_method_details.toOption = none →
        r'.paymentMethodType = some "") ∧
      (e.data.object.billing_details.toOption = none →
        r'.billingDetails = { name := some "", email := some "", address := emptyAddress }) := by
  have hrec := reconcile_charge now e (pre ++ r :: post) hk
  rw [hp, findOneAndUpdate_hit now _ _ true pre post r (no_intent_match (.val p) pre hpre)
    (by simp [matchesFilter_intent, hr, Js.toOption])] at hrec
  rw [applyEvent_of_reconcile now e _ _ hrec]
  refine ⟨_, rfl, ?_, ?_, ?_, ?_, ?_, ?_⟩
  · simp [setPath, castString, castBilling, stampUpdate, orEmpty, Js.merge_val]
  · simp [setPath, castString, castBilling, stampUpdate, orEmpty, Js.toOption]
  · simp [setPath, castString, castBilling, stampUpdate, orEmpty, Js.toOption]
  · simp [setPath, castString, castBilling, stampUpdate, orEmpty]
  · intro h
    cases hd : e.data.object.payment_method_details <;>
      simp [hd, Js.toOption] at h <;>
      simp [setPath, castString, castBilling, stampUpdate, orEmpty, Js.merge_val, hd,
        Js.chain, Js.toOption]
  · intro h
    cases hd : e.data.object.billing_details <;>
      simp [hd, Js.toOption] at h <;>
      simp [setPath, castString, castBilling, stampUpdate, orEmpty, Js.merge_val, hd,
        Js.chain, Js.toOption]

theorem charge_updated_overwrites_absent_fields_witness :
    ∃ r', applyEvent 4 chargeUpdatedBare ([] ++ billedRecord :: []) = [] ++ r' :: [] ∧
      r'.paymentMethodType = some (
        (chargeUpdatedBare.data.object.payment_method_details.chain
          fun d => d.type).toOption.getD "") ∧
      r'.billingDetails.name = some (
        (chargeUpdatedBare.data.object.billing_details.chain
          fun b => b.name).toOption.getD "") ∧
      r'.billingDetails.email = some (
        (chargeUpdatedBare.data.object.billing_details.chain
          fun b => b.email).toOption.getD "") ∧
      r'.billingDetails.address =
        (chargeUpdatedBare.data.object.billing_details.chain
          fun b => b.address).toOption.getD emptyAddress ∧
      (chargeUpdatedBare.data.object.payment_method_details.toOption = none →
        r'.paymentMethodType = some "") ∧
      (chargeUpdatedBare.data.object.billing_details.toOption = none →
        r'.billingDetails = { name := some "", email := some "", address := emptyAddress }) :=
  charge_updated_overwrites_absent_fields 4 chargeUpdatedBare [] [] billedRecord "pi_1"
    (by decide) (by decide) (by simp) (by decide)

/-! ## IntentFailed -/

/-- C8 at a failing input: an IntentFailed event for `pi_1` whose `last_payment_error`
has the message `Your card was declined.`, applied to a store whose only document has
`paymentIntentId` `pi_1`, sets `paymentStatus` to `failed` and leaves `errorMessage`
null: the update writes the text under the key `error`, which is no path of the
schema. -/
theorem intent_failed_drops_error_message :
    intentFailedPi1.type = "payment_intent.payment_failed" ∧
      intentFailedPi1.data.object.id = .val "pi_1" ∧
      intentFailedPi1.data.object.last_payment_error
        = .val { message := .val "Your card was declined." } ∧
      billedRecord.paymentIntentId = some "pi_1" ∧
      (applyEvent 5 intentFailedPi1 [billedRecord]).map
        (fun r => (r.paymentStatus, r.errorMessage)) = [(some "failed", none)] := by
  decide

/-! ## Repeated delivery of the updating events -/

theorem reconcile_twice_succeeded (t1 t2 : Nat) (e : Event) (store : Store)
    (hk : e.type = "payment_intent.succeeded") :
    ∃ s1 s2, reconcile none t1 e store = .ok s1 ∧ reconcile none t2 e s1 = .ok s2 ∧
      sameExceptUpdatedAt s2 s1 ∧ s2.length = s1.length := by
  obtain ⟨s1, s2, h1, h2, h3, h4⟩ := findOneAndUpdate_twice t1 t2
    [("paymentIntentId", .str e.data.object.id)]
    [("paymentStatus", .str e.data.object.status), ("updated", .date t1)]
    [("paymentStatus", .str e.data.object.status), ("updated", .date t2)] false store
    (by intro r hr
        simpa [matchesFilter_intent, setPath, castString, stampUpdate] using hr)
    (by intro r
        simp [setPath, castString, stampUpdate, eraseUpdatedAt])
    (by simp [matchesFilter_intent, setPath, castString, stampInsert, emptyDoc])
    (by simp [setPath, castString, stampUpdate, stampInsert, eraseUpdatedAt, emptyDoc])
  exact ⟨s1, s2, by rw [reconcile_succeeded t1 e store hk, h1],
    by rw [reconcile_succeeded t2 e s1 hk, h2], h3, h4⟩

theorem reconcile_twice_failed (t1 t2 : Nat) (e : Event) (store : Store)
    (hk : e.type = "payment_intent.payment_failed") :
    ∃ s1 s2, reconcile none t1 e store = .ok s1 ∧ reconcile none t2 e s1 = .ok s2 ∧
      sameExceptUpdatedAt s2 s1 ∧ s2.length = s1.length := by
  obtain ⟨s1, s2, h1, h2, h3, h4⟩ := findOneAndUpdate_twice t1 t2
    [("paymentIntentId", .str e.data.object.id)]
    [("paymentStatus", .str (.val "failed")),
     ("error", .str (e.data.object.last_payment_error.chain fun x => x.message)),
     ("updated", .date t1)]
    [("paymentStatus", .str (.val "failed")),
     ("error", .str (e.data.object.last_payment_error.chain fun x => x.message)),
     ("updated", .date t2)] false store
    (by intro r hr
        simpa [matchesFilter_intent, setPath, castString, stampUpdate] using hr)
    (by intro r
        simp [setPath, castString, stampUpdate, eraseUpdatedAt])
    (by simp [matchesFilter_intent, setPath, castString, stampInsert, emptyDoc])
    (by simp [setPath, castString, stampUpdate, stampInsert, eraseUpdatedAt, emptyDoc])
  exact ⟨s1, s2, by rw [reconcile_failed t1 e store hk, h1],
    by rw [reconcile_failed t2 e s1 hk, h2], h3, h4⟩

theorem reconcile_twice_charge (t1 t2 : Nat) (e : Event) (store : Store)
    (hk : e.type = "charge.updated") :
    ∃ s1 s2, reconcile none t1 e store = .ok s1 ∧ reconcile none t2 e s1 = .ok s2 ∧
      sameExceptUpdatedAt s2 s1 ∧ s2.length = s1.length := by
  obtain ⟨s1, s2, h1, h2, h3, h4⟩ := findOneAndUpdate_twice t1 t2
    [("paymentIntentId", .str e.data.object.payment_intent)]
    [("chargeId", .str e.data.object.id),
     ("receiptUrl", .str e.data.object.receipt_url),
     ("paymentStatus", .str e.data.object.status),
     ("paymentMethodType",
        .str (orEmpty (e.data.object.payment_method_details.chain fun d => d.type))),
     ("billingDetails", .billing
        { name := (orEmpty (e.data.object.billing_details.chain fun b => b.name)).toOption,
          email := (orEmpty (e.data.object.billing_details.chain fun b => b.email)).toOption,
          address :=
            (e.data.object.billing_details.chain fun b => b.address).toOption.getD
              emptyAddress })]
    [("chargeId", .str e.data.object.id),
     ("receiptUrl", .str e.data.object.receipt_url),
     ("paymentStatus", .str e.data.object.status),
     ("paymentMethodType",
        .str (orEmpty (e.data.object.payment_method_details.chain fun d => d.type))),
     ("billingDetails", .billing
        { name := (orEmpty (e.data.object.billing_details.chain fun b => b.name)).toOption,
          email := (orEmpty (e.data.object.billing_details.chain fun b => b.email)).toOption,
          address :=
            (e.data.object.billing_details.chain fun b => b.address).toOption.getD
              emptyAddress })]
    true store
    (by intro r hr
        simpa [matchesFilter_intent, setPath, castString, castBilling, stampUpdate] using hr)
    (by intro r
        simp [setPath, castString, castBilling, stampUpdate, eraseUpdatedAt])
    (by simp [matchesFilter_intent, setPath, castString, castBilling, stampInsert, emptyDoc])
    (by simp [setPath, castString, castBilling, stampUpdate, stampInsert, eraseUpdatedAt,
          emptyDoc])
  exact ⟨s1, s2, by rw [reconcile_charge t1 e store hk, h1],
    by rw [reconcile_charge t2 e s1 hk, h2], h3, h4⟩

/-- C9: for an IntentSucceeded, IntentFailed or ChargeUpdated event, applying the event
a second time leaves the store as the first application left it, document for document
and field for field except `updatedAt`, with the same number of documents; a
ChargeUpdated event for a payment intent no document has adds one document the first
time and none the second. -/
theorem update_events_idempotent (t1 t2 : Nat) (e : Event) (store : Store)
    (hk : e.type = "payment_intent.succeeded" ∨ e.type = "payment_intent.payment_failed" ∨
      e.type = "charge.updated") :
    sameExceptUpdatedAt (applyEvent t2 e (applyEvent t1 e store)) (applyEvent t1 e store) ∧
      (applyEvent t2 e (applyEvent t1 e store)).length = (applyEvent t1 e store).length ∧
      (e.type = "charge.updated" →
        (∀ r ∈ store, r.paymentIntentId ≠ e.data.object.payment_intent.toOption) →
        (applyEvent t1 e store).length = store.length + 1 ∧
          (applyEvent t2 e (applyEvent t1 e store)).length = store.length + 1) := by
  have key : ∃ s1 s2, reconcile none t1 e store = .ok s1 ∧ reconcile none t2 e s1 = .ok s2 ∧
      sameExceptUpdatedAt s2 s1 ∧ s2.length = s1.length := by
    rcases hk with hk | hk | hk
    · exact reconcile_twice_succeeded t1 t2 e store hk
    · exact reconcile_twice_failed t1 t2 e store hk
    · exact reconcile_twice_charge t1 t2 e store hk
  obtain ⟨s1, s2, h1, h2, h3, h4⟩ := key
  have a1 := applyEvent_of_reconcile t1 e store s1 h1
  have a2 := applyEvent_of_reconcile t2 e s1 s2 h2
  rw [a1, a2]
  refine ⟨h3, h4, ?_⟩
  intro hc hnew
  have hrec := reconcile_charge t1 e store hc
  rw [findOneAndUpdate_upsert t1 _ _ store (no_intent_match _ store hnew), h1] at hrec
  have hs1 : s1.length = store.length + 1 := by
    have := congrArg (fun x => (x.toOption.map List.length)) hrec
    simpa [Except.toOption] using this
  exact ⟨hs1, by rw [h4, hs1]⟩

theorem update_events_idempotent_witness :
    sameExceptUpdatedAt (applyEvent 2 chargeUpdatedCh1 (applyEvent 1 chargeUpdatedCh1 []))
        (applyEvent 1 chargeUpdatedCh1 []) ∧
      (applyEvent 2 chargeUpdatedCh1 (applyEvent 1 chargeUpdatedCh1 [])).length
        = (applyEvent 1 chargeUpdatedCh1 []).length ∧
      (chargeUpdatedCh1.type = "charge.updated" →
        (∀ r ∈ ([] : Store),
          r.paymentIntentId ≠ chargeUpdatedCh1.data.object.payment_intent.toOption) →
        (applyEvent 1 chargeUpdatedCh1 []).length = ([] : Store).length + 1 ∧
          (applyEvent 2 chargeUpdatedCh1 (applyEvent 1 chargeUpdatedCh1 [])).length
            = ([] : Store).length + 1) :=
  update_events_idempotent 1 2 chargeUpdatedCh1 [] (Or.inr (Or.inr (by decide)))

/-! ## ChargeUpdated followed by SessionCompleted -/

/-- C10: when no document has `paymentIntentId` `p` and none has `sessionId` `s`, a
ChargeUpdated event for `p` followed by a SessionCompleted event with id `s` and payment
intent `p` appends two distinct documents with `paymentIntentId` `p`: the one created
by the charge event (its `chargeId` is the charge's id; no `sessionId`, `customerEmail`
or `amountTotal`) and the one created by the session event (`sessionId` `s`, no
`chargeId`).  The session event is inserted, not merged, so two documents share the
payment intent. -/
theorem charge_then_session_yields_two_records (t1 t2 : Nat) (c s : Event) (store : Store)
    (p sid : String) (hc : c.type = "charge.updated")
    (hcp : c.data.object.payment_intent = .val p)
    (hs : s.type = "checkout.session.completed") (hsid : s.data.object.id = .val sid)
    (hsp : s.data.object.payment_intent = .val p)
    (hnoP : ∀ r ∈ store, r.paymentIntentId ≠ some p)
    (hnoS : ∀ r ∈ store, r.sessionId ≠ some sid) :
    ∃ a b, applyEvent t2 s (applyEvent t1 c store) = store ++ [a, b] ∧ a ≠ b ∧
      a.paymentIntentId = some p ∧ b.paymentIntentId = some p ∧
      a.chargeId = c.data.object.id.toOption ∧ a.sessionId = none ∧ a.customerEmail = none ∧
      a.amountTotal = none ∧
      b.sessionId = some sid ∧ b.chargeId = none ∧
      countIntent (some p) (applyEvent t2 s (applyEvent t1 c store)) = 2 ∧
      countSession (some sid) (applyEvent t2 s (applyEvent t1 c store)) = 1 := by
  have hrec := reconcile_charge t1 c store hc
  rw [hcp, findOneAndUpdate_upsert t1 _ _ store (no_intent_match (.val p) store hnoP)] at hrec
  have h1 := applyEvent_of_reconcile t1 c store _ hrec
  have h2 := fun x => applyEvent_of_reconcile t2 s x _ (reconcile_session t2 s x hs)
  rw [h1, h2, hsid, hsp]
  have fP : store.filter (fun r => decide (r.paymentIntentId = some p)) = [] := by
    rw [List.filter_eq_nil_iff]
    intro r hr
    simpa using hnoP r hr
  have fS : store.filter (fun r => decide (r.sessionId = some sid)) = [] := by
    rw [List.filter_eq_nil_iff]
    intro r hr
    simpa using hnoS r hr
  refine ⟨_, _, List.append_assoc _ _ _, ?_, ?_, rfl, ?_, ?_, ?_, ?_, rfl, rfl, ?_, ?_⟩
  · intro h
    have := congrArg StripePayment.sessionId h
    simp [setPath, castString, castBilling, stampInsert, emptyDoc] at this
  · simp [setPath, castString, castBilling, stampInsert, emptyDoc]
  · simp [setPath, castString, castBilling, stampInsert, emptyDoc]
  · simp [setPath, castString, castBilling, stampInsert, emptyDoc]
  · simp [setPath, castString, castBilling, stampInsert, emptyDoc]
  · simp [setPath, castString, castBilling, stampInsert, emptyDoc]
  · simp [countIntent, List.filter_append, List.filter_cons, fP, setPath, castString,
      castBilling, stampInsert, emptyDoc]
  · simp [countSession, List.filter_append, List.filter_cons, fS, setPath, castString,
      castBilling, stampInsert, emptyDoc]

theorem charge_then_session_yields_two_records_witness :
    ∃ a b, applyEvent 2 sessionCompletedCs1 (applyEvent 1 chargeUpdatedCh1 []) = [] ++ [a, b] ∧
      a ≠ b ∧ a.paymentIntentId = some "pi_1" ∧ b.paymentIntentId = some "pi_1" ∧
      a.chargeId = chargeUpdatedCh1.data.object.id.toOption ∧ a.sessionId = none ∧
      a.customerEmail = none ∧ a.amountTotal = none ∧
      b.sessionId = some "cs_1" ∧ b.chargeId = none ∧
      countIntent (some "pi_1")
        (applyEvent 2 sessionCompletedCs1 (applyEvent 1 chargeUpdatedCh1 [])) = 2 ∧
      countSession (some "cs_1")
        (applyEvent 2 sessionCompletedCs1 (applyEvent 1 chargeUpdatedCh1 [])) = 1 :=
  charge_then_session_yields_two_records 1 2 chargeUpdatedCh1 sessionCompletedCs1 [] "pi_1"
    "cs_1" (by decide) (by decide) (by decide) (by decide) (by decide) (by simp) (by simp)

end PaymentGateway
